import Mathlib

/-!
Verification of the Email-Forwarder contact-form relay (`src/app.py`,
SMTP variant) against its natural-language specification.

The Flask handler `handle_email` and the message construction of
`send_email` are shallowly embedded below.  JSON values carried by the
request body are modelled by `JVal`; Python truthiness, `dict.get`,
`str.strip` and attribute errors on non-strings are modelled explicitly.
The outer `try/except` of the handler is modelled by running the body in
`Except PyExc` and mapping any error to the generic 500 response.  The
SMTP transport call is external; its boolean outcome is a parameter of
`handle_email`, and the handler's second component records the arguments
passed to the transport when (and only when) it is invoked.
-/

deriving instance DecidableEq for Except

namespace EmailForwarder

/-- A JSON value as far as the handler can observe it: strings, numbers,
booleans and null.  (`src/app.py` only ever reads the four scalar fields.) -/
inductive JVal where
  | jstr (s : String)
  | jnum (n : Int)
  | jbool (b : Bool)
  | jnull
deriving DecidableEq, Repr

/-- Python truthiness of a JSON value: empty string, zero, `False` and
`None` are falsy, everything else truthy. -/
def pyTruthy : JVal → Bool
  | .jstr s => s != ""
  | .jnum n => n != 0
  | .jbool b => b
  | .jnull => false

/-- Truthiness of `data.get(field)`: an absent key is falsy (`None`). -/
def jTruthy : Option JVal → Bool
  | none => false
  | some v => pyTruthy v

/-- Python's whitespace set relevant to `str.strip()` (ASCII part). -/
def isPyWS (c : Char) : Bool :=
  c == ' ' || c == '\t' || c == '\n' || c == '\r' || c == '\x0b' || c == '\x0c'

/-- `str.strip()` on the character list: drop whitespace from both ends. -/
def pyStripL (l : List Char) : List Char :=
  ((l.dropWhile isPyWS).reverse.dropWhile isPyWS).reverse

/-- `str.strip()` on strings. -/
def pyStrip (s : String) : String :=
  String.mk (pyStripL s.data)

/-- Exceptions the embedded handler body can raise: `.strip()` on a
non-string value (AttributeError) and `data[k]` on an absent key
(KeyError). -/
inductive PyExc where
  | attributeError (msg : String)
  | keyError (msg : String)
deriving DecidableEq, Repr

/-- `v.strip()`: succeeds on strings, raises AttributeError otherwise. -/
def pyStripJ : JVal → Except PyExc String
  | .jstr s => .ok (pyStrip s)
  | _ => .error (.attributeError "strip")

/-- The JSON object of the request body, as an association list
(`data.get` / `data[k]` look up the first binding). -/
def pyGet (body : List (String × JVal)) (k : String) : Option JVal :=
  (body.find? (fun p => p.1 == k)).map Prod.snd

/-- An inbound POST /send-email request: its content-type flag
(`request.is_json`) and its parsed JSON object. -/
structure Request where
  isJson : Bool
  body : List (String × JVal)
deriving DecidableEq, Repr

/-- Server configuration read from the environment at startup:
`SENDER_EMAIL` and `SENDER_PASSWORD` (`None` when unset). -/
structure Config where
  senderEmail : Option String
  senderPassword : Option String
deriving DecidableEq, Repr

/-- Truthiness of an optional environment string (unset and empty are falsy). -/
def optTruthy : Option String → Bool
  | none => false
  | some s => s != ""

/-- `all([SENDER_EMAIL, SENDER_PASSWORD])` (line 92 of `src/app.py`). -/
def configSet (cfg : Config) : Bool :=
  optTruthy cfg.senderEmail && optTruthy cfg.senderPassword

/-- The JSON response of the handler: HTTP status plus the `success`,
`message` and `error` fields of the body. -/
structure Response where
  status : Nat
  success : Bool
  message : Option String
  error : Option String
deriving DecidableEq, Repr

/-- The arguments handed to `send_email` when the handler invokes it. -/
structure SendCall where
  name : String
  email : String
  message : String
  targetEmail : String
deriving DecidableEq, Repr

/-- Python's `c in s` for a single character `c`: membership of the
character in the string. -/
def pyInChar (s : String) (c : Char) : Bool :=
  s.data.contains c

/-- `required_fields` (line 82 of `src/app.py`). -/
def required_fields : List String :=
  ["name", "email", "message", "target_email"]

/-- The missing-fields list of line 83:
fields whose `data.get` value is falsy. -/
def missingOf (req : Request) : List String :=
  required_fields.filter (fun f => !jTruthy (pyGet req.body f))

/-- Lines 100-103: `data[f].strip()` for the four fields, in order.
Raises KeyError on an absent key and AttributeError on a non-string. -/
def stripFields (body : List (String × JVal)) :
    Except PyExc (String × String × String × String) :=
  match pyGet body "name", pyGet body "email",
        pyGet body "message", pyGet body "target_email" with
  | some vn, some ve, some vm, some vt => do
      let n ← pyStripJ vn
      let e ← pyStripJ ve
      let m ← pyStripJ vm
      let t ← pyStripJ vt
      .ok (n, e, m, t)
  | _, _, _, _ => .error (.keyError "field")

/-- The body of the `try` block of `handle_email` (lines 72-135 of
`src/app.py`).  `sendResult` is the boolean returned by the transport
call `send_email(...)`; the second component of a successful result
records the arguments of that call, `none` when it never happens. -/
def handleBody (cfg : Config) (req : Request) (sendResult : Bool) :
    Except PyExc (Response × Option SendCall) :=
  if req.isJson = false then
    .ok (⟨400, false, none, some "Content-Type must be application/json"⟩, none)
  else if missingOf req ≠ [] then
    .ok (⟨400, false, none,
      some ("Missing required fields: " ++ String.intercalate ", " (missingOf req))⟩, none)
  else if configSet cfg = false then
    .ok (⟨500, false, none, some "Server email configuration error"⟩, none)
  else
    match stripFields req.body with
    | .error ex => .error ex
    | .ok (name, email, message, target_email) =>
      if name = "" ∨ email = "" ∨ message = "" ∨ target_email = "" then
        .ok (⟨400, false, none, some "All fields must contain valid content"⟩, none)
      else if pyInChar email '@' = false ∨ pyInChar email '.' = false then
        .ok (⟨400, false, none, some "Invalid sender email format"⟩, none)
      else if pyInChar target_email '@' = false ∨ pyInChar target_email '.' = false then
        .ok (⟨400, false, none, some "Invalid target email format"⟩, none)
      else if sendResult then
        .ok (⟨200, true, some "Email sent successfully", none⟩,
          some ⟨name, email, message, target_email⟩)
      else
        .ok (⟨500, false, none, some "Failed to send email"⟩,
          some ⟨name, email, message, target_email⟩)

/-- The full handler: the `try` body with the outer `except Exception`
(lines 137-142) turning any raised exception into the generic 500. -/
def handle_email (cfg : Config) (req : Request) (sendResult : Bool) :
    Response × Option SendCall :=
  match handleBody cfg req sendResult with
  | .ok rc => rc
  | .error _ => (⟨500, false, none, some "Internal server error"⟩, none)

/-- The message constructed by `send_email` (lines 31-49 of `src/app.py`). -/
structure EmailMsg where
  fromAddr : Option String
  toAddr : String
  subject : String
  body : String
deriving DecidableEq, Repr

/-- The f-string of lines 37-47 before `.strip()`. -/
def emailBodyRaw (name sender_email message ts : String) : String :=
  "\nContact Form Submission\n\nFrom: " ++ name ++ "\nEmail: " ++ sender_email
    ++ "\nMessage:\n" ++ message ++ "\n\n---\nSent at: " ++ ts ++ "\n        "

/-- The message construction of `send_email`: `From` is the configured
sender, `To` the target, the subject is the sender's name, and the body
is the stripped template.  `ts` stands for
`datetime.now().strftime('%Y-%m-%d %H:%M:%S')`. -/
def buildEmailMsg (senderCfg : Option String)
    (name sender_email message target_email ts : String) : EmailMsg :=
  { fromAddr := senderCfg
    toAddr := target_email
    subject := name
    body := pyStrip (emailBodyRaw name sender_email message ts) }

/-- `true` when the string is nonempty and its last character is not
whitespace (every `%Y-%m-%d %H:%M:%S` timestamp ends in a digit). -/
def endsNonWS (s : String) : Bool :=
  match s.data.reverse with
  | [] => false
  | c :: _ => !isPyWS c

/-- `true` when `n` occurs as a substring of `h`. -/
def isPrefixOfL : List Char → List Char → Bool
  | [], _ => true
  | _ :: _, [] => false
  | c :: cs, d :: ds => c == d && isPrefixOfL cs ds

/-- Substring occurrence on character lists. -/
def hasSubL : List Char → List Char → Bool
  | [], n => n.isEmpty
  | h :: t, n => isPrefixOfL n (h :: t) || hasSubL t n

/-- Substring occurrence on strings. -/
def containsSubstr (h n : String) : Bool :=
  hasSubL h.data n.data

/-! ### Concrete inputs used by the witnesses -/

/-- A fully set configuration. -/
def wCfg : Config := ⟨some "server@example.com", some "hunter2"⟩

/-- A configuration with `SENDER_EMAIL` unset. -/
def wCfgNone : Config := ⟨none, some "hunter2"⟩

/-- The spec's example submission: all four fields valid. -/
def reqValid : Request :=
  ⟨true, [("name", .jstr "Jane"), ("email", .jstr "jane@x.com"),
          ("message", .jstr "Hi"), ("target_email", .jstr "owner@y.com")]⟩

/-- A request whose `message` field is the boolean `true`: truthy but not
a string. -/
def reqBoolMsg : Request :=
  ⟨true, [("name", .jstr "Jane"), ("email", .jstr "jane@x.com"),
          ("message", .jbool true), ("target_email", .jstr "owner@y.com")]⟩

/-- A request whose `name` field is the number 42: truthy but not a string. -/
def reqNumName : Request :=
  ⟨true, [("name", .jnum 42), ("email", .jstr "jane@x.com"),
          ("message", .jstr "Hi"), ("target_email", .jstr "owner@y.com")]⟩

/-- A request whose `email` field has no `@` and no `.`. -/
def reqBadEmail : Request :=
  ⟨true, [("name", .jstr "Jane"), ("email", .jstr "bademail"),
          ("message", .jstr "Hi"), ("target_email", .jstr "owner@y.com")]⟩

/-- A request whose `name` field is a single space: truthy, so it passes
the missing-fields check, but empty after stripping. -/
def reqBlankName : Request :=
  ⟨true, [("name", .jstr " "), ("email", .jstr "jane@x.com"),
          ("message", .jstr "Hi"), ("target_email", .jstr "owner@y.com")]⟩

/-- A request with no `name` field at all. -/
def reqNoName : Request :=
  ⟨true, [("email", .jstr "jane@x.com"),
          ("message", .jstr "Hi"), ("target_email", .jstr "owner@y.com")]⟩

/-! ### Helper lemmas -/

/-- `String.append` acts as append on the character lists. -/
lemma data_append (a b : String) : (a ++ b).data = a.data ++ b.data := rfl

/-- Strings with equal character lists are equal. -/
lemma str_ext (a b : String) (h : a.data = b.data) : a = b := by
  cases a; cases b; cases h; rfl

/-- Dropping leading whitespace passes over an all-whitespace prefix. -/
lemma dropWhile_append_allws (p r : List Char)
    (hp : ∀ x ∈ p, isPyWS x = true) :
    (p ++ r).dropWhile isPyWS = r.dropWhile isPyWS := by
  induction p with
  | nil => rfl
  | cons a as ih =>
    rw [List.cons_append, List.dropWhile_cons, if_pos (hp a (List.mem_cons_self a as))]
    exact ih fun x hx => hp x (List.mem_cons_of_mem a hx)

/-- Stripping an all-whitespace prefix `p` and suffix `q` from a list
that starts with a non-whitespace `c` and ends (through `tsl`) with a
non-whitespace `d` returns exactly the middle. -/
lemma pyStripL_tmpl (p q mid tsl rest' : List Char) (c d : Char)
    (hp : ∀ x ∈ p, isPyWS x = true) (hq : ∀ x ∈ q, isPyWS x = true)
    (hc : isPyWS c = false) (hd : isPyWS d = false)
    (hts : tsl.reverse = d :: rest') :
    pyStripL (p ++ (c :: (mid ++ tsl)) ++ q) = c :: (mid ++ tsl) := by
  have key : (p ++ (c :: (mid ++ tsl)) ++ q).dropWhile isPyWS
      = c :: (mid ++ (tsl ++ q)) := by
    rw [List.append_assoc, dropWhile_append_allws p _ hp,
      List.cons_append, List.dropWhile_cons, if_neg (by simp [hc])]
    simp
  unfold pyStripL
  rw [key]
  have key2 : (c :: (mid ++ (tsl ++ q))).reverse
      = q.reverse ++ (d :: (rest' ++ (mid.reverse ++ [c]))) := by
    simp [hts]
  rw [key2, dropWhile_append_allws _ _ (fun x hx => hq x (List.mem_reverse.mp hx)),
    List.dropWhile_cons, if_neg (by simp [hd])]
  have key3 : d :: (rest' ++ (mid.reverse ++ [c]))
      = (c :: (mid ++ tsl)).reverse := by
    simp [hts]
  rw [key3, List.reverse_reverse]

/-- Unfolding `endsNonWS`: the reversed character list starts with a
non-whitespace character. -/
lemma endsNonWS_spec (s : String) (h : endsNonWS s = true) :
    ∃ d rest', s.data.reverse = d :: rest' ∧ isPyWS d = false := by
  unfold endsNonWS at h
  cases hrev : s.data.reverse with
  | nil => rw [hrev] at h; cases h
  | cons d rest' =>
    rw [hrev] at h
    exact ⟨d, rest', rfl, by simpa using h⟩

/-- A successful `.strip()` only happens on a string value. -/
lemma pyStripJ_ok_shape (v : JVal) (s : String) (h : pyStripJ v = .ok s) :
    ∃ s', v = JVal.jstr s' := by
  cases v with
  | jstr s' => exact ⟨s', rfl⟩
  | jnum k => simp [pyStripJ] at h
  | jbool b => simp [pyStripJ] at h
  | jnull => simp [pyStripJ] at h

/-- When the extraction of lines 100-103 succeeds, every required field
is present and bound to a string value. -/
lemma stripFields_ok_strings (body : List (String × JVal))
    (r : String × String × String × String)
    (h : stripFields body = Except.ok r) :
    ∀ f ∈ required_fields, ∃ s, pyGet body f = some (JVal.jstr s) := by
  unfold stripFields at h
  split at h
  next vn ve vm vt hvn hve hvm hvt =>
    cases h1 : pyStripJ vn with
    | error ex =>
      rw [h1] at h
      simp only [Except.bind, bind, Except.instMonad] at h; exact Except.noConfusion h
    | ok n =>
      cases h2 : pyStripJ ve with
      | error ex =>
        rw [h1, h2] at h
        simp only [Except.bind, bind, Except.instMonad] at h; exact Except.noConfusion h
      | ok e =>
        cases h3 : pyStripJ vm with
        | error ex =>
          rw [h1, h2, h3] at h
          simp only [Except.bind, bind, Except.instMonad] at h; exact Except.noConfusion h
        | ok m =>
          cases h4 : pyStripJ vt with
          | error ex =>
            rw [h1, h2, h3, h4] at h
            simp only [Except.bind, bind, Except.instMonad] at h; exact Except.noConfusion h
          | ok t =>
            intro f hf
            fin_cases hf
            · obtain ⟨s', hs'⟩ := pyStripJ_ok_shape vn n h1
              exact ⟨s', by rw [hvn, hs']⟩
            · obtain ⟨s', hs'⟩ := pyStripJ_ok_shape ve e h2
              exact ⟨s', by rw [hve, hs']⟩
            · obtain ⟨s', hs'⟩ := pyStripJ_ok_shape vm m h3
              exact ⟨s', by rw [hvm, hs']⟩
            · obtain ⟨s', hs'⟩ := pyStripJ_ok_shape vt t h4
              exact ⟨s', by rw [hvt, hs']⟩
  next h9 =>
    cases h

/-! ### Claim theorems -/

/-- Claim C1 (corrected), counterexample to the original claim: a
request whose `name` is the single space `" "` has `name` empty after
trimming, yet the 400 response's error message is the generic
`"All fields must contain valid content"`, which does not even contain
the substring `"name"`, so it cannot name the offending field. -/
theorem C1_counterexample :
    (handle_email wCfg reqBlankName true).1 =
      ⟨400, false, none, some "All fields must contain valid content"⟩ ∧
    containsSubstr "All fields must contain valid content" "name" = false := by
  decide

/-- Claim C1 (amended): for a JSON request, (1) if some required field
is absent or bound to a falsy value (e.g. the empty string), the
response is 400 and its error names exactly those fields, in order;
(2) a field that is truthy but empty once stripped instead yields,
when the configuration is set, the 400 response with the generic
`"All fields must contain valid content"` naming no field. -/
theorem C1_missing_and_blank (cfg : Config) (req : Request) (sr : Bool)
    (hj : req.isJson = true) :
    (missingOf req ≠ [] →
      (handle_email cfg req sr).1 =
        ⟨400, false, none,
          some ("Missing required fields: " ++
            String.intercalate ", " (missingOf req))⟩) ∧
    (∀ n e m t, missingOf req = [] → configSet cfg = true →
      stripFields req.body = .ok (n, e, m, t) →
      (n = "" ∨ e = "" ∨ m = "" ∨ t = "") →
      (handle_email cfg req sr).1 =
        ⟨400, false, none, some "All fields must contain valid content"⟩) := by
  constructor
  · intro hmiss
    simp [handle_email, handleBody, hj, hmiss]
  · intro n e m t hmiss hcfg hs hempty
    rcases hempty with hx | hx | hx | hx <;>
      simp [handle_email, handleBody, hj, hmiss, hcfg, hs, hx]

/-- Witness for the amended C1 at a request lacking `name`. -/
theorem C1_missing_and_blank_witness :
    (handle_email wCfg reqNoName true).1 =
      ⟨400, false, none,
        some ("Missing required fields: " ++
          String.intercalate ", " (missingOf reqNoName))⟩ :=
  (C1_missing_and_blank wCfg reqNoName true (by decide)).1 (by decide)

/-- Claim C2: for a JSON request with the configuration set whose four
fields are present and non-empty after trimming, a trimmed `email` or
`target_email` lacking `@` or `.` yields a 400 response, with the
sender-format error whenever the sender email is malformed and the
target-format error when the sender email is fine. -/
theorem C2_malformed_email (cfg : Config) (req : Request) (sr : Bool)
    (n e m t : String)
    (hj : req.isJson = true) (hmiss : missingOf req = [])
    (hcfg : configSet cfg = true)
    (hs : stripFields req.body = .ok (n, e, m, t))
    (hn : n ≠ "") (he : e ≠ "") (hm : m ≠ "") (ht : t ≠ "")
    (hbad : pyInChar e '@' = false ∨ pyInChar e '.' = false ∨
            pyInChar t '@' = false ∨ pyInChar t '.' = false) :
    (handle_email cfg req sr).1.status = 400 ∧
    (handle_email cfg req sr).1.success = false ∧
    ((pyInChar e '@' = false ∨ pyInChar e '.' = false) →
      (handle_email cfg req sr).1.error = some "Invalid sender email format") ∧
    (pyInChar e '@' = true → pyInChar e '.' = true →
      (handle_email cfg req sr).1.error = some "Invalid target email format") := by
  cases he1 : pyInChar e '@' with
  | false =>
    have hr : (handle_email cfg req sr).1 =
        ⟨400, false, none, some "Invalid sender email format"⟩ := by
      simp [handle_email, handleBody, hj, hmiss, hcfg, hs, hn, he, hm, ht, he1]
    rw [hr]
    exact ⟨rfl, rfl, fun _ => rfl, fun h1 _ => by cases h1⟩
  | true =>
    cases he2 : pyInChar e '.' with
    | false =>
      have hr : (handle_email cfg req sr).1 =
          ⟨400, false, none, some "Invalid sender email format"⟩ := by
        simp [handle_email, handleBody, hj, hmiss, hcfg, hs, hn, he, hm, ht, he1, he2]
      rw [hr]
      exact ⟨rfl, rfl, fun _ => rfl, fun _ h2 => by cases h2⟩
    | true =>
      have hbt : pyInChar t '@' = false ∨ pyInChar t '.' = false := by
        rcases hbad with h | h | h | h
        · rw [he1] at h; cases h
        · rw [he2] at h; cases h
        · exact Or.inl h
        · exact Or.inr h
      have hr : (handle_email cfg req sr).1 =
          ⟨400, false, none, some "Invalid target email format"⟩ := by
        rcases hbt with h | h <;>
          simp [handle_email, handleBody, hj, hmiss, hcfg, hs, hn, he, hm, ht, he1, he2, h]
      rw [hr]
      refine ⟨rfl, rfl, fun h1 => ?_, fun _ _ => rfl⟩
      rcases h1 with h | h
      · cases h
      · cases h

/-- Witness for C2 at `email = "bademail"`. -/
theorem C2_malformed_email_witness :
    (handle_email wCfg reqBadEmail true).1.status = 400 ∧
    (handle_email wCfg reqBadEmail true).1.success = false ∧
    ((pyInChar "bademail" '@' = false ∨ pyInChar "bademail" '.' = false) →
      (handle_email wCfg reqBadEmail true).1.error =
        some "Invalid sender email format") ∧
    (pyInChar "bademail" '@' = true → pyInChar "bademail" '.' = true →
      (handle_email wCfg reqBadEmail true).1.error =
        some "Invalid target email format") :=
  C2_malformed_email wCfg reqBadEmail true "Jane" "bademail" "Hi" "owner@y.com"
    (by decide) (by decide) (by decide) (by decide) (by decide) (by decide)
    (by decide) (by decide) (Or.inl (by decide))

/-- Claim C3: the transport is only invoked on validated input — if the
handler records a `send_email` call, the request was JSON, no field was
missing, the configuration was set, the call's arguments are exactly
the stripped field values, all four are non-empty, and both email-like
arguments contain `@` and `.`. -/
theorem C3_transport_only_validated (cfg : Config) (req : Request) (sr : Bool)
    (call : SendCall) (h : (handle_email cfg req sr).2 = some call) :
    req.isJson = true ∧ missingOf req = [] ∧ configSet cfg = true ∧
    stripFields req.body =
      .ok (call.name, call.email, call.message, call.targetEmail) ∧
    call.name ≠ "" ∧ call.email ≠ "" ∧ call.message ≠ "" ∧
    call.targetEmail ≠ "" ∧
    pyInChar call.email '@' = true ∧ pyInChar call.email '.' = true ∧
    pyInChar call.targetEmail '@' = true ∧
    pyInChar call.targetEmail '.' = true := by
  unfold handle_email at h
  cases hb : handleBody cfg req sr with
  | error ex => rw [hb] at h; simp at h
  | ok rc =>
    rw [hb] at h
    unfold handleBody at hb
    split at hb
    case isTrue hjf => cases hb; simp at h
    case isFalse hjf =>
      split at hb
      case isTrue hmf => cases hb; simp at h
      case isFalse hmf =>
        split at hb
        case isTrue hcf => cases hb; simp at h
        case isFalse hcf =>
          split at hb
          case h_1 => exact Except.noConfusion hb
          case h_2 =>
            rename_i n e m t hsf
            split at hb
            case isTrue hempty => cases hb; simp at h
            case isFalse hempty =>
              split at hb
              case isTrue hebad => cases hb; simp at h
              case isFalse hebad =>
                split at hb
                case isTrue htbad => cases hb; simp at h
                case isFalse htbad =>
                  split at hb
                  case isTrue hsr =>
                    cases hb
                    simp at h
                    subst h
                    push_neg at hempty
                    simp at hjf hmf hcf hebad htbad
                    exact ⟨hjf, hmf, hcf, hsf, hempty.1, hempty.2.1,
                      hempty.2.2.1, hempty.2.2.2, hebad.1, hebad.2,
                      htbad.1, htbad.2⟩
                  case isFalse hsr =>
                    cases hb
                    simp at h
                    subst h
                    push_neg at hempty
                    simp at hjf hmf hcf hebad htbad
                    exact ⟨hjf, hmf, hcf, hsf, hempty.1, hempty.2.1,
                      hempty.2.2.1, hempty.2.2.2, hebad.1, hebad.2,
                      htbad.1, htbad.2⟩

/-- Witness for C3 at the spec's example submission. -/
theorem C3_transport_only_validated_witness :
    (handle_email wCfg reqValid true).2 =
      some ⟨"Jane", "jane@x.com", "Hi", "owner@y.com"⟩ ∧
    (reqValid.isJson = true ∧ missingOf reqValid = [] ∧
     configSet wCfg = true ∧
     stripFields reqValid.body =
       .ok ("Jane", "jane@x.com", "Hi", "owner@y.com") ∧
     ("Jane" : String) ≠ "" ∧ ("jane@x.com" : String) ≠ "" ∧
     ("Hi" : String) ≠ "" ∧ ("owner@y.com" : String) ≠ "" ∧
     pyInChar "jane@x.com" '@' = true ∧ pyInChar "jane@x.com" '.' = true ∧
     pyInChar "owner@y.com" '@' = true ∧ pyInChar "owner@y.com" '.' = true) :=
  ⟨by decide, C3_transport_only_validated wCfg reqValid true
    ⟨"Jane", "jane@x.com", "Hi", "owner@y.com"⟩ (by decide)⟩

/-- Claim C4: for every request that passes every validation check
(JSON content type, no missing fields, configuration set, all four
stripped fields non-empty, both email-like fields containing `@` and
`.`), if the transport reports success the response is status 200 with
body `success: true`, `message: "Email sent successfully"`. -/
theorem C4_success_response (cfg : Config) (req : Request) (n e m t : String)
    (hj : req.isJson = true) (hmiss : missingOf req = [])
    (hcfg : configSet cfg = true)
    (hs : stripFields req.body = .ok (n, e, m, t))
    (hn : n ≠ "") (he : e ≠ "") (hm : m ≠ "") (ht : t ≠ "")
    (he1 : pyInChar e '@' = true) (he2 : pyInChar e '.' = true)
    (ht1 : pyInChar t '@' = true) (ht2 : pyInChar t '.' = true) :
    (handle_email cfg req true).1 =
      ⟨200, true, some "Email sent successfully", none⟩ := by
  simp [handle_email, handleBody, hj, hmiss, hcfg, hs, hn, he, hm, ht,
    he1, he2, ht1, ht2]

/-- Witness for C4 at the spec's example submission. -/
theorem C4_success_response_witness :
    (handle_email wCfg reqValid true).1 =
      ⟨200, true, some "Email sent successfully", none⟩ :=
  C4_success_response wCfg reqValid "Jane" "jane@x.com" "Hi" "owner@y.com"
    (by decide) (by decide) (by decide) (by decide) (by decide) (by decide)
    (by decide) (by decide) (by decide) (by decide) (by decide) (by decide)

/-- Claim C5: for every request that passes every validation check, if
the transport reports failure the response is status 500 with
`success: false` and the fixed error string `"Failed to send email"` —
a constant body, so nothing from the transport beyond the pass/fail bit
reaches the response. -/
theorem C5_failure_response (cfg : Config) (req : Request) (n e m t : String)
    (hj : req.isJson = true) (hmiss : missingOf req = [])
    (hcfg : configSet cfg = true)
    (hs : stripFields req.body = .ok (n, e, m, t))
    (hn : n ≠ "") (he : e ≠ "") (hm : m ≠ "") (ht : t ≠ "")
    (he1 : pyInChar e '@' = true) (he2 : pyInChar e '.' = true)
    (ht1 : pyInChar t '@' = true) (ht2 : pyInChar t '.' = true) :
    (handle_email cfg req false).1 =
      ⟨500, false, none, some "Failed to send email"⟩ := by
  simp [handle_email, handleBody, hj, hmiss, hcfg, hs, hn, he, hm, ht,
    he1, he2, ht1, ht2]

/-- Witness for C5 at the spec's example submission with a failing
transport. -/
theorem C5_failure_response_witness :
    (handle_email wCfg reqValid false).1 =
      ⟨500, false, none, some "Failed to send email"⟩ :=
  C5_failure_response wCfg reqValid "Jane" "jane@x.com" "Hi" "owner@y.com"
    (by decide) (by decide) (by decide) (by decide) (by decide) (by decide)
    (by decide) (by decide) (by decide) (by decide) (by decide) (by decide)

/-- Claim C6: when `SENDER_EMAIL` or `SENDER_PASSWORD` is unset, any
request that passes the missing-fields check gets status 500 with the
generic `"Server email configuration error"`, and the transport is
never invoked. -/
theorem C6_config_unset (cfg : Config) (req : Request) (sr : Bool)
    (hj : req.isJson = true) (hmiss : missingOf req = [])
    (hcfg : configSet cfg = false) :
    handle_email cfg req sr =
      (⟨500, false, none, some "Server email configuration error"⟩, none) := by
  simp [handle_email, handleBody, hj, hmiss, hcfg]

/-- Witness for C6 with `SENDER_EMAIL` unset. -/
theorem C6_config_unset_witness :
    handle_email wCfgNone reqValid true =
      (⟨500, false, none, some "Server email configuration error"⟩, none) :=
  C6_config_unset wCfgNone reqValid true (by decide) (by decide) (by decide)

/-- Claim C8: whenever the body of the handler raises an exception, the
outer boundary converts it — whatever it was — to the generic response
status 500, `error: "Internal server error"`, with no transport call
recorded. -/
theorem C8_exception_boundary (cfg : Config) (req : Request) (sr : Bool)
    (ex : PyExc) (h : handleBody cfg req sr = .error ex) :
    handle_email cfg req sr =
      (⟨500, false, none, some "Internal server error"⟩, none) := by
  unfold handle_email
  rw [h]

/-- Witness for C8: a truthy non-string `message` field raises on
`.strip()` and is answered with the generic 500. -/
theorem C8_exception_boundary_witness :
    handleBody wCfg reqBoolMsg true = .error (.attributeError "strip") ∧
    handle_email wCfg reqBoolMsg true =
      (⟨500, false, none, some "Internal server error"⟩, none) :=
  ⟨by decide, C8_exception_boundary wCfg reqBoolMsg true
    (.attributeError "strip") (by decide)⟩

/-- Claim C9: the configuration check precedes the email-format checks —
with the configuration unset, a request whose four fields are present
and truthy but whose `email` strips to a string lacking `@` or `.`
still receives the 500 configuration error, not a 400. -/
theorem C9_config_before_format (cfg : Config) (req : Request) (sr : Bool)
    (hj : req.isJson = true) (hmiss : missingOf req = [])
    (hcfg : configSet cfg = false)
    (_hmal : ∃ s, pyGet req.body "email" = some (JVal.jstr s) ∧
      (pyInChar (pyStrip s) '@' = false ∨ pyInChar (pyStrip s) '.' = false)) :
    (handle_email cfg req sr).1 =
      ⟨500, false, none, some "Server email configuration error"⟩ ∧
    (handle_email cfg req sr).1.status ≠ 400 := by
  have hr : handle_email cfg req sr =
      (⟨500, false, none, some "Server email configuration error"⟩, none) := by
    simp [handle_email, handleBody, hj, hmiss, hcfg]
  rw [hr]
  exact ⟨rfl, by decide⟩

/-- Witness for C9: `email = "bademail"` with `SENDER_EMAIL` unset. -/
theorem C9_config_before_format_witness :
    (handle_email wCfgNone reqBadEmail true).1 =
      ⟨500, false, none, some "Server email configuration error"⟩ ∧
    (handle_email wCfgNone reqBadEmail true).1.status ≠ 400 :=
  C9_config_before_format wCfgNone reqBadEmail true (by decide) (by decide)
    (by decide) ⟨"bademail", by decide⟩

/-- Claim C7: for any validated submission and any timestamp that does
not end in whitespace (as `%Y-%m-%d %H:%M:%S` output never does), the
constructed email has the sender's name as its subject, is addressed to
the target email, carries the configured sender as `From`, and its body
is exactly the fixed template embedding the sender name, the sender
email, the message text and the timestamp. -/
theorem C7_email_construction (sc : Option String) (n e m t ts : String)
    (hts : endsNonWS ts = true) :
    (buildEmailMsg sc n e m t ts).subject = n ∧
    (buildEmailMsg sc n e m t ts).toAddr = t ∧
    (buildEmailMsg sc n e m t ts).fromAddr = sc ∧
    (buildEmailMsg sc n e m t ts).body =
      "Contact Form Submission\n\nFrom: " ++ n ++ "\nEmail: " ++ e ++
      "\nMessage:\n" ++ m ++ "\n\n---\nSent at: " ++ ts := by
  refine ⟨rfl, rfl, rfl, ?_⟩
  obtain ⟨d, rest', hrev, hd⟩ := endsNonWS_spec ts hts
  show pyStrip (emailBodyRaw n e m ts) = _
  apply str_ext
  show pyStripL (emailBodyRaw n e m ts).data = _
  have hdata : (emailBodyRaw n e m ts).data =
      ['\n'] ++ ('C' :: (("ontact Form Submission\n\nFrom: ".data ++ (n.data
        ++ ("\nEmail: ".data ++ (e.data ++ ("\nMessage:\n".data ++ (m.data
        ++ "\n\n---\nSent at: ".data)))))) ++ ts.data)) ++ "\n        ".data := by
    simp [emailBodyRaw, data_append, List.append_assoc]
  rw [hdata,
    pyStripL_tmpl ['\n'] "\n        ".data _ ts.data rest' 'C' d
      (by decide) (by decide) (by decide) hd hrev]
  rw [show ("Contact Form Submission\n\nFrom: " ++ n ++ "\nEmail: " ++ e ++
      "\nMessage:\n" ++ m ++ "\n\n---\nSent at: " ++ ts).data
      = 'C' :: ("ontact Form Submission\n\nFrom: ".data ++ (n.data
        ++ ("\nEmail: ".data ++ (e.data ++ ("\nMessage:\n".data ++ (m.data
        ++ "\n\n---\nSent at: ".data)))))) ++ ts.data from by
    simp [data_append, List.append_assoc]]
  simp [List.append_assoc]

/-- Witness for C7 at the spec's example submission and a concrete
timestamp. -/
theorem C7_email_construction_witness :
    endsNonWS "2025-10-12 09:30:00" = true ∧
    ((buildEmailMsg (some "server@example.com") "Jane" "jane@x.com" "Hi"
        "owner@y.com" "2025-10-12 09:30:00").subject = "Jane" ∧
     (buildEmailMsg (some "server@example.com") "Jane" "jane@x.com" "Hi"
        "owner@y.com" "2025-10-12 09:30:00").toAddr = "owner@y.com" ∧
     (buildEmailMsg (some "server@example.com") "Jane" "jane@x.com" "Hi"
        "owner@y.com" "2025-10-12 09:30:00").fromAddr =
          some "server@example.com" ∧
     (buildEmailMsg (some "server@example.com") "Jane" "jane@x.com" "Hi"
        "owner@y.com" "2025-10-12 09:30:00").body =
      "Contact Form Submission\n\nFrom: " ++ "Jane" ++ "\nEmail: " ++
        "jane@x.com" ++ "\nMessage:\n" ++ "Hi" ++ "\n\n---\nSent at: " ++
        "2025-10-12 09:30:00") :=
  ⟨by decide, C7_email_construction (some "server@example.com") "Jane"
    "jane@x.com" "Hi" "owner@y.com" "2025-10-12 09:30:00" (by decide)⟩

/-- Claim C10: a request whose required field is present and truthy but
not a string passes the missing-fields check and then raises on
`.strip()`; the handler answers with the generic 500
`"Internal server error"`, not a client error, and the transport is not
invoked. -/
theorem C10_nonstring_field (cfg : Config) (req : Request) (sr : Bool)
    (f : String) (v : JVal)
    (hj : req.isJson = true) (hmiss : missingOf req = [])
    (hcfg : configSet cfg = true)
    (hf : f ∈ required_fields) (hv : pyGet req.body f = some v)
    (hns : ∀ s, v ≠ JVal.jstr s) :
    handle_email cfg req sr =
      (⟨500, false, none, some "Internal server error"⟩, none) := by
  have herr : ∀ r, stripFields req.body ≠ Except.ok r := by
    intro r hr
    obtain ⟨s, hgs⟩ := stripFields_ok_strings req.body r hr f hf
    rw [hv] at hgs
    exact hns s (by injection hgs)
  cases hsf : stripFields req.body with
  | ok r => exact absurd hsf (herr r)
  | error ex =>
    have hb : handleBody cfg req sr = .error ex := by
      simp [handleBody, hj, hmiss, hcfg, hsf]
    unfold handle_email
    rw [hb]

/-- Witness for C10 at `name = 42`. -/
theorem C10_nonstring_field_witness :
    handle_email wCfg reqNumName true =
      (⟨500, false, none, some "Internal server error"⟩, none) :=
  C10_nonstring_field wCfg reqNumName true "name" (.jnum 42)
    (by decide) (by decide) (by decide) (by decide) (by decide)
    (fun s hs => by cases hs)

end EmailForwarder
